import Mathlib

/-
Verification of the session-timing and interval-planning engine of the
workout/Spotify companion application.

The definitions below are shallow embeddings of the TypeScript source:
  - src/hooks/useIntervalPlan.ts     (plan model, computeTimeline, sanitizeSliceSeconds)
  - src/hooks/useIntervalSession.ts  (session driver)
  - src/hooks/useCurrentlyPlaying.ts and the embedded copy in
    src/components/SongCounterPanel.tsx (playback observer normalization)
  - src/hooks/useScreenWakeLock.ts, second module (song completion counter)
  - src/context/AuthContext.tsx      (proactive credential refresh scheduling)

JavaScript numbers are modelled as Nat (plan arithmetic: all quantities are
non-negative integers) or Int (timestamps and millisecond arithmetic that may
go negative), and as Rat where fractional inputs matter (slice-length
sanitization).  Stateful hooks are modelled as explicit state-passing step
functions on record types.
-/

set_option maxRecDepth 4000

/-! ## Interval plan model (src/hooks/useIntervalPlan.ts) -/

/-- IntervalPlan from useIntervalPlan.ts.  totalMinutes is kept by
clampMinutes as a non-negative integer, hence Nat. -/
structure IntervalPlan where
  totalMinutes : Nat
  includeThirtySeconds : Bool
  sliceLengthSeconds : Nat
deriving DecidableEq, Repr

/-- TimelineSlice from useIntervalPlan.ts. -/
structure TimelineSlice where
  index : Nat
  durationMs : Nat
  startMs : Nat
  endMs : Nat
  isRemainder : Bool
  skipAfter : Bool
deriving DecidableEq, Repr

/-- IntervalStats from useIntervalPlan.ts. -/
structure IntervalStats where
  totalDurationMs : Nat
  baseSliceDurationMs : Nat
  fullSlices : Nat
  remainderMs : Nat
  timeline : List TimelineSlice
  skipCount : Nat
deriving DecidableEq, Repr

/-- SLICE_OPTIONS_SECONDS from useIntervalPlan.ts. -/
def SLICE_OPTIONS_SECONDS : List Nat := [30, 60, 90, 120, 150, 180, 210]

/-- DEFAULT_PLAN from useIntervalPlan.ts. -/
def DEFAULT_PLAN : IntervalPlan :=
  { totalMinutes := 10, includeThirtySeconds := false, sliceLengthSeconds := 120 }

/-- totalMs from useIntervalPlan.ts:
(plan.totalMinutes * 60 + (plan.includeThirtySeconds ? 30 : 0)) * 1000. -/
def totalMs (plan : IntervalPlan) : Nat :=
  (plan.totalMinutes * 60 + (if plan.includeThirtySeconds then 30 else 0)) * 1000

/-- The body of the for-loop of computeTimeline (useIntervalPlan.ts lines
74-91).  The loop `for (index = 0; index < slicesToCreate; index++)` is
modelled by structural recursion on the number of remaining iterations
(`remaining` = slicesToCreate - index), threading the mutable
`currentStart` accumulator explicitly. -/
def buildSlices (sliceMs remainderMs slicesToCreate : Nat) :
    Nat → Nat → Nat → List TimelineSlice
  | 0, _, _ => []
  | remaining + 1, currentStart, index =>
    let isLast : Bool := index == slicesToCreate - 1
    let isRemainder : Bool := isLast && decide (0 < remainderMs)
    let durationMs : Nat := if isRemainder then remainderMs else sliceMs
    let startMs : Nat := currentStart
    let endMs : Nat := startMs + durationMs
    { index := index, durationMs := durationMs, startMs := startMs, endMs := endMs,
      isRemainder := isRemainder, skipAfter := !isLast } ::
      buildSlices sliceMs remainderMs slicesToCreate remaining endMs (index + 1)

/-- computeTimeline from useIntervalPlan.ts (lines 52-101).
`totalDurationMs <= 0` is `= 0` on Nat; `Math.max(0, timeline.length - 1)`
is truncated Nat subtraction. -/
def computeTimeline (plan : IntervalPlan) : IntervalStats :=
  let totalDurationMs := totalMs plan
  let sliceMs := plan.sliceLengthSeconds * 1000
  if totalDurationMs = 0 then
    { totalDurationMs := 0, baseSliceDurationMs := sliceMs, fullSlices := 0,
      remainderMs := 0, timeline := [], skipCount := 0 }
  else
    let fullSlices := totalDurationMs / sliceMs
    let remainderMs := totalDurationMs - fullSlices * sliceMs
    let slicesToCreate := fullSlices + (if 0 < remainderMs ∨ fullSlices = 0 then 1 else 0)
    let timeline := buildSlices sliceMs remainderMs slicesToCreate slicesToCreate 0 0
    { totalDurationMs := totalDurationMs, baseSliceDurationMs := sliceMs,
      fullSlices := fullSlices, remainderMs := remainderMs, timeline := timeline,
      skipCount := timeline.length - 1 }

/-! ## Slice-length sanitization (src/hooks/useIntervalPlan.ts lines 40-46) -/

/-- A JavaScript number as consumed by sanitizeSliceSeconds: either a finite
value (modelled as a rational) or one of the non-finite values, for which
Number.isFinite is false. -/
inductive JSNumber where
  | finite (value : Rat)
  | nan
  | posInf
  | negInf
deriving DecidableEq

/-- JavaScript Math.round: round half toward positive infinity,
Math.round x = ⌊x + 1/2⌋.  Rat.floor is used so that the definition
evaluates by kernel reduction; it agrees with Int.floor on Rat. -/
def jsRound (q : Rat) : Int := (q + 1 / 2).floor

/-- sanitizeSliceSeconds from useIntervalPlan.ts lines 40-46.  Non-finite
input falls back to DEFAULT_PLAN.sliceLengthSeconds; otherwise the value is
rounded to a multiple of 30, clamped to [30, 210], and checked against
SLICE_OPTIONS_SECONDS. -/
def sanitizeSliceSeconds (value : JSNumber) : Rat :=
  match value with
  | .finite q =>
    let normalized : Rat := max 30 (min 210 ((jsRound (q / 30) : Rat) * 30))
    if normalized ∈ SLICE_OPTIONS_SECONDS.map (fun n => (n : Rat)) then normalized
    else (DEFAULT_PLAN.sliceLengthSeconds : Rat)
  | _ => (DEFAULT_PLAN.sliceLengthSeconds : Rat)

/-- res is an option of SLICE_OPTIONS_SECONDS nearest to q: no enumerated
option is strictly closer. -/
def isNearestOption (res q : Rat) : Prop :=
  ∀ o ∈ SLICE_OPTIONS_SECONDS, |res - q| ≤ |(o : Rat) - q|

/-! ## Interval session driver (src/hooks/useIntervalSession.ts) -/

inductive SessionStatus where
  | idle
  | running
  | completed
deriving DecidableEq, Repr

/-- SessionState from useIntervalSession.ts. -/
structure SessionState where
  status : SessionStatus
  startedAt : Option Int
  currentSliceIndex : Nat
deriving DecidableEq, Repr

/-- The observable state of the session driver hook: the React state plus
the two timer refs.  pendingSliceTimers holds the scheduled slice-boundary
actions (one per slice, delay slice.endMs); tickActive models the 500ms
display interval. -/
structure DriverModel where
  session : SessionState
  pendingSliceTimers : List TimelineSlice
  tickActive : Bool
deriving DecidableEq, Repr

/-- Initial hook state: useState with status idle, no timers. -/
def initialDriver : DriverModel :=
  { session := { status := .idle, startedAt := none, currentSliceIndex := 0 },
    pendingSliceTimers := [], tickActive := false }

/-- stopSession from useIntervalSession.ts lines 46-50: clearTimers,
clearTicker, reset state to idle. -/
def stopSession (_d : DriverModel) : DriverModel :=
  { session := { status := .idle, startedAt := none, currentSliceIndex := 0 },
    pendingSliceTimers := [], tickActive := false }

/-- startSession from useIntervalSession.ts lines 69-114.  Early return when
no access token or the timeline is empty; otherwise clear existing timers,
anchor startedAt, start the tick, and schedule one timeout per slice. -/
def startSession (hasToken : Bool) (stats : IntervalStats) (now : Int)
    (d : DriverModel) : DriverModel :=
  if !hasToken || stats.timeline.length == 0 then d
  else
    { session := { status := .running, startedAt := some now, currentSliceIndex := 0 },
      pendingSliceTimers := stats.timeline,
      tickActive := true }

/-- The dependency guard of the plan-change effect
(useIntervalSession.ts lines 122-124):
useEffect(stopSession, [stats.timeline.length, stats.totalDurationMs]).
React re-runs the effect, cancelling the previous timers, exactly when one
of the two listed dependencies changed. -/
def planChangeEffectFires (oldStats newStats : IntervalStats) : Bool :=
  decide (oldStats.timeline.length ≠ newStats.timeline.length) ||
    decide (oldStats.totalDurationMs ≠ newStats.totalDurationMs)

/-! ## Playback observer normalization (src/hooks/useCurrentlyPlaying.ts and
the embedded copy in src/components/SongCounterPanel.tsx, which adds the
trackId field consumed by the song counter) -/

/-- CurrentTrack from SongCounterPanel.tsx (the useCurrentlyPlaying.ts
variant is identical except it lacks trackId). -/
structure CurrentTrack where
  trackId : String
  trackName : String
  artistNames : String
  albumName : String
  albumArtUrl : Option String
  isPlaying : Bool
  progressMs : Int
  durationMs : Int
  updatedAt : Int
deriving DecidableEq, Repr

structure RawArtist where
  name : String
deriving DecidableEq, Repr

structure RawAlbum where
  name : Option String
  imageUrls : List String
deriving DecidableEq, Repr

/-- The item field of the Spotify currently-playing payload, as read by
fetchCurrentTrack.  `artists = none` models a payload whose artists field is
absent or not an array (Array.isArray false); option fields model the ?? and
?. fallbacks. -/
structure RawItem where
  id : String
  name : String
  artists : Option (List RawArtist)
  album : Option RawAlbum
  durationMs : Option Int
deriving DecidableEq, Repr

structure RawPayload where
  item : Option RawItem
  isPlaying : Bool
  progressMs : Option Int
deriving DecidableEq, Repr

/-- The three response shapes fetchCurrentTrack distinguishes: HTTP 204,
a non-ok / network failure (carrying the derived message), or a parsed
JSON payload. -/
inductive PollResponse where
  | noContent
  | failure (message : String)
  | success (payload : RawPayload)
deriving DecidableEq, Repr

/-- The track/error fields of the observer state written by one poll. -/
structure PollResult where
  track : Option CurrentTrack
  error : Option String
deriving DecidableEq, Repr

/-- The normalization performed by fetchCurrentTrack
(useCurrentlyPlaying.ts lines 55-99, SongCounterPanel.tsx lines 226-318):
204 or missing item give track null and no error; otherwise a CurrentTrack
is built, with artists joined by ", " when the artists field is an array and
the sentinel otherwise, and album name defaulted. -/
def normalizePoll (resp : PollResponse) (now : Int) : PollResult :=
  match resp with
  | .noContent => { track := none, error := none }
  | .failure msg => { track := none, error := some msg }
  | .success payload =>
    match payload.item with
    | none => { track := none, error := none }
    | some item =>
      { track := some
          { trackId := item.id,
            trackName := item.name,
            artistNames :=
              match item.artists with
              | some artistList => String.intercalate ", " (artistList.map RawArtist.name)
              | none => "Unknown artist",
            albumName := (item.album.bind RawAlbum.name).getD "Unknown album",
            albumArtUrl := item.album.bind (fun a => a.imageUrls.head?),
            isPlaying := payload.isPlaying,
            progressMs := payload.progressMs.getD 0,
            durationMs := item.durationMs.getD 0,
            updatedAt := now },
        error := none }

/-! ## Song completion counter (src/hooks/useScreenWakeLock.ts, second
module: useSongCounterSession) -/

inductive SongCounterStatus where
  | idle
  | running
deriving DecidableEq, Repr

/-- CompletedSong from the song counter module. -/
structure CompletedSong where
  trackId : String
  trackName : String
  artistNames : String
  durationMs : Int
deriving DecidableEq, Repr

/-- ActiveTrackSnapshot from the song counter module. -/
structure ActiveTrackSnapshot where
  trackId : String
  trackName : String
  artistNames : String
  durationMs : Int
  startProgressMs : Int
  latestProgressMs : Int
deriving DecidableEq, Repr

/-- The observable state of useSongCounterSession: the SongCounterState
React state, the two refs (activeTrackRef, lastFinalizedTrackIdRef) and the
isBusy flag. -/
structure CounterModel where
  status : SongCounterStatus
  songsCompleted : Nat
  totalElapsedMs : Int
  lastSong : Option CompletedSong
  error : Option String
  activeTrack : Option ActiveTrackSnapshot
  lastFinalizedTrackId : Option String
  isBusy : Bool
deriving DecidableEq, Repr

/-- INITIAL_STATE plus null refs. -/
def initialCounter : CounterModel :=
  { status := .idle, songsCompleted := 0, totalElapsedMs := 0, lastSong := none,
    error := none, activeTrack := none, lastFinalizedTrackId := none, isBusy := false }

/-- getLiveProgress (useScreenWakeLock.ts second module, lines 204-209):
drift = isPlaying ? max(0, now - updatedAt) : 0; result clamped to
[0, durationMs].  now is passed explicitly (Date.now in the source). -/
def getLiveProgress (track : CurrentTrack) (now : Int) : Int :=
  let drift : Int := if track.isPlaying then max 0 (now - track.updatedAt) else 0
  let estimated := track.progressMs + drift
  min track.durationMs (max 0 estimated)

namespace SongCounter

/-- Error message set by a failed skip command. -/
def skipFailedMessage : String := "Could not skip track. Check your Spotify app and try again."

/-- Error message when start is called without a playing track. -/
def startNeedsPlaybackMessage : String := "Start playback in Spotify before counting songs."

/-- Error message when start is called without a credential. -/
def startNeedsTokenMessage : String := "Spotify access expired. Reconnect and try again."

/-- finalizeActiveTrack (useScreenWakeLock.ts second module, lines 224-255).
If no accumulator, no-op.  Otherwise cap the latest progress into
[startProgressMs, durationMs], clear the accumulator and remember the
finalized id, and append a record / bump totals only when playedMs > 0. -/
def finalizeActiveTrack (overrideProgressMs : Option Int) (c : CounterModel) :
    CounterModel :=
  match c.activeTrack with
  | none => c
  | some snapshot =>
    let latest := overrideProgressMs.getD snapshot.latestProgressMs
    let cappedLatest := min snapshot.durationMs (max snapshot.startProgressMs latest)
    let playedMs := max 0 (cappedLatest - snapshot.startProgressMs)
    let cleared : CounterModel :=
      { c with activeTrack := none, lastFinalizedTrackId := some snapshot.trackId }
    if playedMs ≤ 0 then cleared
    else
      { cleared with
        songsCompleted := cleared.songsCompleted + 1,
        totalElapsedMs := cleared.totalElapsedMs + playedMs,
        lastSong := some
          { trackId := snapshot.trackId, trackName := snapshot.trackName,
            artistNames := snapshot.artistNames, durationMs := playedMs } }

/-- beginTracking (lines 257-268): record the current live progress as both
start and latest, clear the last-finalized marker. -/
def beginTracking (track : CurrentTrack) (now : Int) (c : CounterModel) : CounterModel :=
  let liveProgress := getLiveProgress track now
  { c with
    activeTrack := some
      { trackId := track.trackId, trackName := track.trackName,
        artistNames := track.artistNames, durationMs := track.durationMs,
        startProgressMs := liveProgress, latestProgressMs := liveProgress },
    lastFinalizedTrackId := none }

/-- start (lines 270-283): error if no playing track or no token; otherwise
replace the React state with a fresh running state and begin tracking. -/
def start (track : Option CurrentTrack) (hasToken : Bool) (now : Int)
    (c : CounterModel) : CounterModel :=
  match track with
  | none => { c with error := some startNeedsPlaybackMessage }
  | some t =>
    if !t.isPlaying then { c with error := some startNeedsPlaybackMessage }
    else if !hasToken then { c with error := some startNeedsTokenMessage }
    else
      beginTracking t now
        { c with status := .running, songsCompleted := 0, totalElapsedMs := 0,
                 lastSong := none, error := none }

/-- stop (lines 285-295): no-op when idle; otherwise finalize, clear both
refs, reset busy, and go idle (totals are kept). -/
def stop (c : CounterModel) : CounterModel :=
  if c.status = .idle then c
  else
    let c1 := finalizeActiveTrack none c
    { c1 with activeTrack := none, lastFinalizedTrackId := none,
              isBusy := false, status := .idle }

/-- skip (lines 297-332): only while running; finalize with the current live
progress when a track is visible; stop there if no token; otherwise issue
the external skip (skipSucceeds models the fetch outcome), clearing the
error first and setting it on failure, resetting isBusy in the finally. -/
def skip (track : Option CurrentTrack) (hasToken : Bool) (now : Int)
    (skipSucceeds : Bool) (c : CounterModel) : CounterModel :=
  if c.status ≠ .running then c
  else
    let c1 :=
      match track with
      | some t => finalizeActiveTrack (some (getLiveProgress t now)) c
      | none => finalizeActiveTrack none c
    if !hasToken then c1
    else if skipSucceeds then { c1 with error := none, isBusy := false }
    else { c1 with error := some skipFailedMessage, isBusy := false }

/-- The snapshot-processing effect (lines 334-366): while running, a null
track finalizes and clears both refs; a track already finalized with no
accumulator is ignored; no accumulator begins tracking; the same track
updates the accumulator in place; a different track finalizes then begins
tracking. -/
def processSnapshot (track : Option CurrentTrack) (now : Int)
    (c : CounterModel) : CounterModel :=
  if c.status ≠ .running then c
  else
    match track with
    | none =>
      let c1 := finalizeActiveTrack none c
      { c1 with activeTrack := none, lastFinalizedTrackId := none }
    | some t =>
      if c.lastFinalizedTrackId = some t.trackId ∧ c.activeTrack = none then c
      else
        match c.activeTrack with
        | none => beginTracking t now c
        | some active =>
          if active.trackId = t.trackId then
            let updated : ActiveTrackSnapshot :=
              { active with
                latestProgressMs := getLiveProgress t now,
                durationMs := t.durationMs,
                trackName := t.trackName,
                artistNames := t.artistNames }
            { c with activeTrack := some updated }
          else
            beginTracking t now (finalizeActiveTrack none c)

end SongCounter

/-- songsCompleted/totalElapsedMs either unchanged or bumped by exactly one
completed song with a positive finalized duration. -/
def countersMonotone (c c2 : CounterModel) : Prop :=
  (c2.songsCompleted = c.songsCompleted ∧ c2.totalElapsedMs = c.totalElapsedMs) ∨
  (c2.songsCompleted = c.songsCompleted + 1 ∧
    ∃ playedMs : Int, 0 < playedMs ∧ c2.totalElapsedMs = c.totalElapsedMs + playedMs)

/-! ## Proactive credential refresh (src/context/AuthContext.tsx lines
24-25 and 111-138) -/

def REFRESH_BUFFER_MS : Int := 60000

def MIN_REFRESH_DELAY_MS : Int := 5000

/-- What scheduleRefresh does with a credential. -/
inductive RefreshAction where
  | noSchedule
  | immediateRefresh
  | delayed (delayMs : Int)
deriving DecidableEq, Repr

/-- scheduleRefresh from AuthContext.tsx lines 111-138: nothing without a
refresh token; immediate refresh when the remaining lifetime is at most the
buffer; otherwise a timeout after max(remaining - buffer, minimum delay). -/
def scheduleRefresh (hasRefreshToken : Bool) (expiresAt now : Int) : RefreshAction :=
  if !hasRefreshToken then .noSchedule
  else
    let msUntilExpiry := expiresAt - now
    if msUntilExpiry ≤ REFRESH_BUFFER_MS then .immediateRefresh
    else .delayed (max (msUntilExpiry - REFRESH_BUFFER_MS) MIN_REFRESH_DELAY_MS)

/-- Closed form of the slice that the computeTimeline loop pushes at loop
index index0 + k, when the loop is entered at index0 with accumulated start
offset start0: every slice before the last is a full slice, so the start
offset grows by sliceMs per iteration.  Used to reason about buildSlices. -/
def mkTimelineSlice (sliceMs remainderMs slicesToCreate start0 index0 k : Nat) :
    TimelineSlice :=
  let j := index0 + k
  let isLast : Bool := j == slicesToCreate - 1
  let isRemainder : Bool := isLast && decide (0 < remainderMs)
  let durationMs : Nat := if isRemainder then remainderMs else sliceMs
  { index := j, durationMs := durationMs, startMs := start0 + k * sliceMs,
    endMs := start0 + k * sliceMs + durationMs, isRemainder := isRemainder,
    skipAfter := !isLast }

/-- The slice length in milliseconds computeTimeline derives from a plan. -/
def sliceMsOf (plan : IntervalPlan) : Nat := plan.sliceLengthSeconds * 1000

/-- The fullSlices value computeTimeline derives from a plan. -/
def fullSlicesOf (plan : IntervalPlan) : Nat := totalMs plan / sliceMsOf plan

/-- The remainderMs value computeTimeline derives from a plan. -/
def remainderMsOf (plan : IntervalPlan) : Nat :=
  totalMs plan - fullSlicesOf plan * sliceMsOf plan

/-- The slicesToCreate value computeTimeline derives from a plan. -/
def sliceCountOf (plan : IntervalPlan) : Nat :=
  fullSlicesOf plan +
    (if 0 < remainderMsOf plan ∨ fullSlicesOf plan = 0 then 1 else 0)

/-! ## Concrete inputs used by individual claim theorems and witnesses -/

/-- A plan whose total duration is zero: the timeline is empty. -/
def zeroDurationPlan : IntervalPlan :=
  { totalMinutes := 0, includeThirtySeconds := false, sliceLengthSeconds := 120 }

/-- Plan of 3 minutes + 30 s with 120 s slices: 2 slices, boundaries at
120 s and 210 s. -/
def planThreeThirty120 : IntervalPlan :=
  { totalMinutes := 3, includeThirtySeconds := true, sliceLengthSeconds := 120 }

/-- The same plan edited to 150 s slices: still 2 slices and 210000 ms
total, but the first boundary moves to 150 s. -/
def planThreeThirty150 : IntervalPlan :=
  { totalMinutes := 3, includeThirtySeconds := true, sliceLengthSeconds := 150 }

/-- A paused snapshot whose reported progress exceeds its duration. -/
def pausedOvershootTrack : CurrentTrack :=
  { trackId := "track-a", trackName := "Song A", artistNames := "Artist A",
    albumName := "Album A", albumArtUrl := none, isPlaying := false,
    progressMs := 500000, durationMs := 300000, updatedAt := 0 }

/-- A playing snapshot observed at t = 1000 ms. -/
def playingTrack : CurrentTrack :=
  { trackId := "track-b", trackName := "Song B", artistNames := "Artist B",
    albumName := "Album B", albumArtUrl := none, isPlaying := true,
    progressMs := 10000, durationMs := 200000, updatedAt := 1000 }

/-- A paused snapshot whose progress lies inside [0, durationMs]. -/
def pausedInRangeTrack : CurrentTrack :=
  { trackId := "track-c", trackName := "Song C", artistNames := "Artist C",
    albumName := "Album C", albumArtUrl := none, isPlaying := false,
    progressMs := 10000, durationMs := 200000, updatedAt := 1000 }

/-- A currently-playing payload whose item carries an artists array of
length zero. -/
def emptyArtistsPayload : RawPayload :=
  { item := some
      { id := "t1", name := "Song", artists := some [], album := none,
        durationMs := some 180000 },
    isPlaying := true, progressMs := some 0 }

/-- A currently-playing payload whose item has no artists array and an
album without a name. -/
def missingArtistsPayload : RawPayload :=
  { item := some
      { id := "t2", name := "Song 2", artists := none,
        album := some { name := none, imageUrls := [] },
        durationMs := some 240000 },
    isPlaying := false, progressMs := some 500 }

/-- An accumulator that started 10 s into a 200 s track and has reached
150 s. -/
def activeSnap : ActiveTrackSnapshot :=
  { trackId := "track-b", trackName := "Song B", artistNames := "Artist B",
    durationMs := 200000, startProgressMs := 10000, latestProgressMs := 150000 }

/-- A running counter holding activeSnap. -/
def counterWithActive : CounterModel :=
  { initialCounter with status := .running, activeTrack := some activeSnap }

/-! ## Bridging lemma for Rat.floor -/

/-- Rat.floor agrees with the Int.floor of the FloorRing instance. -/
theorem ratFloor_eq_intFloor (q : Rat) : q.floor = ⌊q⌋ :=
  (Rat.floor_def' q).trans Rat.floor_def.symm

/-! ## C9 : proactive refresh scheduling -/

/-- C9: with a refresh token present, scheduleRefresh refreshes immediately
when the remaining lifetime is at most 60 seconds, and otherwise schedules
a refresh after max(remaining − 60000, 5000) milliseconds, which is never
less than the 5-second minimum delay. -/
theorem scheduleRefresh_spec (expiresAt now : Int) :
    (expiresAt - now ≤ 60000 →
      scheduleRefresh true expiresAt now = .immediateRefresh) ∧
    (60000 < expiresAt - now →
      scheduleRefresh true expiresAt now =
        .delayed (max (expiresAt - now - 60000) 5000) ∧
      MIN_REFRESH_DELAY_MS ≤ max (expiresAt - now - 60000) 5000) := by
  constructor
  · intro h
    simp only [scheduleRefresh, REFRESH_BUFFER_MS, MIN_REFRESH_DELAY_MS,
      Bool.not_true, Bool.false_eq_true, if_false]
    rw [if_pos h]
  · intro h
    refine ⟨?_, le_max_right _ _⟩
    simp only [scheduleRefresh, REFRESH_BUFFER_MS, MIN_REFRESH_DELAY_MS,
      Bool.not_true, Bool.false_eq_true, if_false]
    rw [if_neg (by omega)]

/-- Witness for C9 at concrete inputs: a credential 50 s from expiry is
refreshed immediately; one 100 s out is scheduled at the 40 s mark. -/
theorem scheduleRefresh_spec_witness :
    scheduleRefresh true 50000 0 = .immediateRefresh ∧
    (scheduleRefresh true 100000 0 = .delayed (max (100000 - 0 - 60000) 5000) ∧
      MIN_REFRESH_DELAY_MS ≤ max ((100000 : Int) - 0 - 60000) 5000) :=
  ⟨(scheduleRefresh_spec 50000 0).1 (by decide),
   (scheduleRefresh_spec 100000 0).2 (by decide)⟩

/-! ## C8 : start with no credential or empty timeline is a silent no-op -/

/-- C8: startSession with no credential or an empty timeline leaves the
driver state exactly unchanged; from the initial idle state the result has
status idle, startedAt absent, currentSliceIndex 0, and no scheduled
actions. -/
theorem startSession_noop (hasToken : Bool) (stats : IntervalStats) (now : Int)
    (d : DriverModel) (h : hasToken = false ∨ stats.timeline = []) :
    startSession hasToken stats now d = d ∧
    (startSession hasToken stats now initialDriver).session.status = .idle ∧
    (startSession hasToken stats now initialDriver).session.startedAt = none ∧
    (startSession hasToken stats now initialDriver).session.currentSliceIndex = 0 ∧
    (startSession hasToken stats now initialDriver).pendingSliceTimers = [] := by
  have hg : (!hasToken || stats.timeline.length == 0) = true := by
    rcases h with h | h <;> simp [h]
  refine ⟨?_, ?_, ?_, ?_, ?_⟩ <;> simp [startSession, hg, initialDriver]

/-- Witness for C8: a plan of total duration zero yields an empty timeline,
and starting with it (credential present) changes nothing. -/
theorem startSession_noop_witness :
    (computeTimeline zeroDurationPlan).timeline = [] ∧
    startSession true (computeTimeline zeroDurationPlan) 0 initialDriver =
      initialDriver :=
  ⟨by decide,
   (startSession_noop true (computeTimeline zeroDurationPlan) 0 initialDriver
      (Or.inr (by decide))).1⟩

/-! ## C4 : cancellation of stale slice timers on plan change -/

/-- C4 (code bug): the plan-change effect of useIntervalSession.ts re-runs
stopSession only when stats.timeline.length or stats.totalDurationMs
changes.  Editing the plan {totalMinutes 3, +30 s, 120 s slices} to 150 s
slices changes the timeline (the first boundary moves from 120 s to 150 s,
and that first slice is scheduled with skipAfter = true) while keeping both
watched dependencies equal (2 slices, 210000 ms), so the effect does not
fire and the previous plan's pending slice action survives to fire. -/
theorem planChange_guard_misses_timeline_change :
    (computeTimeline planThreeThirty120).timeline ≠
      (computeTimeline planThreeThirty150).timeline ∧
    ((computeTimeline planThreeThirty120).timeline.map TimelineSlice.endMs
      = [120000, 210000]) ∧
    ((computeTimeline planThreeThirty150).timeline.map TimelineSlice.endMs
      = [150000, 210000]) ∧
    ((computeTimeline planThreeThirty120).timeline.map TimelineSlice.skipAfter
      = [true, false]) ∧
    planChangeEffectFires (computeTimeline planThreeThirty120)
      (computeTimeline planThreeThirty150) = false := by
  decide

/-! ## C3 : live progress projection -/

/-- C3 counterexample: for a paused track, getLiveProgress does not return
the raw progressMs unmodified; it clamps it into [0, durationMs]. -/
theorem getLiveProgress_paused_clamps :
    pausedOvershootTrack.isPlaying = false ∧
    pausedOvershootTrack.progressMs = 500000 ∧
    getLiveProgress pausedOvershootTrack 0 = 300000 ∧
    getLiveProgress pausedOvershootTrack 0 ≠ pausedOvershootTrack.progressMs := by
  decide

/-- C3 (amended): when playing, getLiveProgress returns progressMs plus the
non-negative wall-clock drift max(0, now − observedAt), clamped to
[0, durationMs]; when paused it returns progressMs clamped to
[0, durationMs], which is the raw progressMs whenever that value already
lies within [0, durationMs]. -/
theorem getLiveProgress_spec (t : CurrentTrack) (now : Int) :
    (t.isPlaying = true →
      getLiveProgress t now =
        min t.durationMs (max 0 (t.progressMs + max 0 (now - t.updatedAt)))) ∧
    (t.isPlaying = false →
      getLiveProgress t now = min t.durationMs (max 0 t.progressMs)) ∧
    (t.isPlaying = false → 0 ≤ t.progressMs → t.progressMs ≤ t.durationMs →
      getLiveProgress t now = t.progressMs) := by
  refine ⟨fun h => ?_, fun h => ?_, fun h h0 h1 => ?_⟩
  · simp [getLiveProgress, h]
  · simp [getLiveProgress, h]
  · simp [getLiveProgress, h, max_eq_right h0, min_eq_right h1]

/-- Witness for C3's amended theorem: a playing track polled 2 s after
observation projects forward by the drift; an in-range paused track returns
its raw progress. -/
theorem getLiveProgress_spec_witness :
    getLiveProgress playingTrack 3000 =
      min playingTrack.durationMs
        (max 0 (playingTrack.progressMs + max 0 (3000 - playingTrack.updatedAt))) ∧
    getLiveProgress pausedInRangeTrack 3000 = pausedInRangeTrack.progressMs :=
  ⟨(getLiveProgress_spec playingTrack 3000).1 rfl,
   (getLiveProgress_spec pausedInRangeTrack 3000).2.2 rfl (by decide) (by decide)⟩

/-! ## C7 : poll response normalization -/

/-- C7 counterexample: a payload whose item carries an artists array of
length zero normalizes to the empty string, not to the sentinel
"Unknown artist". -/
theorem normalizePoll_empty_artists_not_sentinel :
    (normalizePoll (.success emptyArtistsPayload) 0).track.map
        CurrentTrack.artistNames = some "" ∧
    (normalizePoll (.success emptyArtistsPayload) 0).track.map
        CurrentTrack.artistNames ≠ some "Unknown artist" := by
  decide

/-- C7 (amended): no-content responses and payloads with a missing item
yield track = null with no error; a successful response with an item yields
a snapshot whose artistNames is the sentinel "Unknown artist" exactly when
the artists field is absent (not an array), and otherwise the artist names
joined with ", " (the empty string for an artist list of length zero);
a missing album name yields the sentinel "Unknown album"; failures carry
the error message with no track. -/
theorem normalizePoll_spec (payload : RawPayload) (item : RawItem)
    (artistList : List RawArtist) (msg : String) (now : Int) :
    normalizePoll .noContent now = { track := none, error := none } ∧
    normalizePoll (.failure msg) now = { track := none, error := some msg } ∧
    (payload.item = none →
      normalizePoll (.success payload) now = { track := none, error := none }) ∧
    (payload.item = some item →
      (normalizePoll (.success payload) now).error = none) ∧
    (payload.item = some item → item.artists = none →
      (normalizePoll (.success payload) now).track.map CurrentTrack.artistNames =
        some "Unknown artist") ∧
    (payload.item = some item → item.artists = some artistList →
      (normalizePoll (.success payload) now).track.map CurrentTrack.artistNames =
        some (String.intercalate ", " (artistList.map RawArtist.name))) ∧
    (payload.item = some item → item.album.bind RawAlbum.name = none →
      (normalizePoll (.success payload) now).track.map CurrentTrack.albumName =
        some "Unknown album") := by
  refine ⟨rfl, rfl, fun h => ?_, fun h => ?_, fun h ha => ?_, fun h ha => ?_,
    fun h ha => ?_⟩
  · simp [normalizePoll, h]
  · simp [normalizePoll, h]
  · simp [normalizePoll, h, ha]
  · simp [normalizePoll, h, ha]
  · simp [normalizePoll, h, ha]

/-- Witness for C7's amended theorem: a payload with no artists array and
a nameless album renders both sentinels. -/
theorem normalizePoll_spec_witness :
    normalizePoll .noContent 0 = { track := none, error := none } ∧
    (normalizePoll (.success missingArtistsPayload) 0).track.map
        CurrentTrack.artistNames = some "Unknown artist" ∧
    (normalizePoll (.success missingArtistsPayload) 0).track.map
        CurrentTrack.albumName = some "Unknown album" := by
  obtain ⟨h1, _, _, _, h5, _, h7⟩ :=
    normalizePoll_spec missingArtistsPayload
      { id := "t2", name := "Song 2", artists := none,
        album := some { name := none, imageUrls := [] },
        durationMs := some 240000 }
      [] "m" 0
  exact ⟨h1, h5 rfl rfl, h7 rfl rfl⟩

/-! ## C2 : finalization rule and the start-then-stop scenario -/

/-- C2: finalizing an active accumulator clears it in every case and
records playedMs = clamp(latestProgressMs, startProgressMs, durationMs) −
startProgressMs, appending a completed-song record and bumping the totals
exactly when playedMs > 0; consequently a start immediately followed by a
stop (no progress in between) leaves zero records and zero totals. -/
theorem finalizeActiveTrack_spec (c : CounterModel) (snap : ActiveTrackSnapshot)
    (hc : c.activeTrack = some snap) (playedMs : Int)
    (hp : playedMs =
      min snap.durationMs (max snap.startProgressMs snap.latestProgressMs) -
        snap.startProgressMs)
    (c0 : CounterModel) (t : CurrentTrack) (ht : t.isPlaying = true) (now : Int) :
    (SongCounter.finalizeActiveTrack none c).activeTrack = none ∧
    (SongCounter.finalizeActiveTrack none c).lastFinalizedTrackId = some snap.trackId ∧
    (0 < playedMs →
      (SongCounter.finalizeActiveTrack none c).songsCompleted = c.songsCompleted + 1 ∧
      (SongCounter.finalizeActiveTrack none c).totalElapsedMs =
        c.totalElapsedMs + playedMs ∧
      (SongCounter.finalizeActiveTrack none c).lastSong =
        some { trackId := snap.trackId, trackName := snap.trackName,
               artistNames := snap.artistNames, durationMs := playedMs }) ∧
    (playedMs ≤ 0 →
      (SongCounter.finalizeActiveTrack none c).songsCompleted = c.songsCompleted ∧
      (SongCounter.finalizeActiveTrack none c).totalElapsedMs = c.totalElapsedMs ∧
      (SongCounter.finalizeActiveTrack none c).lastSong = c.lastSong) ∧
    ((SongCounter.stop (SongCounter.start (some t) true now c0)).songsCompleted = 0 ∧
      (SongCounter.stop (SongCounter.start (some t) true now c0)).totalElapsedMs = 0 ∧
      (SongCounter.stop (SongCounter.start (some t) true now c0)).lastSong = none ∧
      (SongCounter.stop (SongCounter.start (some t) true now c0)).activeTrack = none) := by
  have hfin : ∀ d : CounterModel, d.activeTrack = some snap →
      SongCounter.finalizeActiveTrack none d =
        (if max 0 (min snap.durationMs (max snap.startProgressMs snap.latestProgressMs)
            - snap.startProgressMs) ≤ 0 then
          { d with activeTrack := none, lastFinalizedTrackId := some snap.trackId }
        else
          { d with
            activeTrack := none
            lastFinalizedTrackId := some snap.trackId
            songsCompleted := d.songsCompleted + 1
            totalElapsedMs := d.totalElapsedMs +
              max 0 (min snap.durationMs
                (max snap.startProgressMs snap.latestProgressMs)
                - snap.startProgressMs)
            lastSong := some
              { trackId := snap.trackId, trackName := snap.trackName,
                artistNames := snap.artistNames,
                durationMs := max 0 (min snap.durationMs
                  (max snap.startProgressMs snap.latestProgressMs)
                  - snap.startProgressMs) } }) := by
    intro d hd
    simp [SongCounter.finalizeActiveTrack, hd]
  rw [hfin c hc]
  refine ⟨?_, ?_, fun hpos => ?_, fun hneg => ?_, ?_⟩
  · split <;> rfl
  · split <;> rfl
  · rw [if_neg (by omega)]
    refine ⟨rfl, by simp; omega, by simp; omega⟩
  · rw [if_pos (by omega)]
    exact ⟨rfl, rfl, rfl⟩
  · have hstart : SongCounter.start (some t) true now c0 =
        SongCounter.beginTracking t now
          { c0 with
            status := .running
            songsCompleted := 0
            totalElapsedMs := 0
            lastSong := none
            error := none } := by
      simp [SongCounter.start, ht]
    have hlive : getLiveProgress t now ≤ t.durationMs := by
      simp only [getLiveProgress]
      omega
    rw [hstart]
    simp only [SongCounter.beginTracking, SongCounter.stop,
      SongCounter.finalizeActiveTrack]
    simp

/-- Witness for C2: finalizing the concrete running counter credits
140000 ms and one song, and the start-then-stop scenario at the concrete
playing track yields all-zero totals. -/
theorem finalizeActiveTrack_spec_witness :
    (SongCounter.finalizeActiveTrack none counterWithActive).activeTrack = none ∧
    (SongCounter.finalizeActiveTrack none counterWithActive).songsCompleted =
      counterWithActive.songsCompleted + 1 ∧
    (SongCounter.finalizeActiveTrack none counterWithActive).totalElapsedMs =
      counterWithActive.totalElapsedMs + 140000 ∧
    (SongCounter.stop
        (SongCounter.start (some playingTrack) true 3000 initialCounter)).songsCompleted
      = 0 := by
  obtain ⟨h1, _, h3, _, h5⟩ :=
    finalizeActiveTrack_spec counterWithActive activeSnap rfl 140000 (by decide)
      initialCounter playingTrack rfl 3000
  obtain ⟨h3a, h3b, _⟩ := h3 (by decide)
  exact ⟨h1, h3a, h3b, h5.1⟩

/-! ## C6 : skip finalizes before issuing the command and keeps the record
on failure -/

/-- C6: while running, skip first finalizes the active accumulator at the
current live progress (c1); the external command is issued only against
that already-finalized state, and on failure the only further changes are
the user-facing error string and the busy flag — songsCompleted,
totalElapsedMs, and the just-finalized record are untouched.  On success
the same holds with the error cleared. -/
theorem skip_spec (c c1 : CounterModel) (t : CurrentTrack) (now : Int)
    (hrun : c.status = .running)
    (hc1 : c1 = SongCounter.finalizeActiveTrack (some (getLiveProgress t now)) c) :
    SongCounter.skip (some t) true now false c =
      { c1 with error := some SongCounter.skipFailedMessage, isBusy := false } ∧
    SongCounter.skip (some t) true now true c =
      { c1 with error := none, isBusy := false } ∧
    (SongCounter.skip (some t) true now false c).songsCompleted = c1.songsCompleted ∧
    (SongCounter.skip (some t) true now false c).totalElapsedMs = c1.totalElapsedMs ∧
    (SongCounter.skip (some t) true now false c).lastSong = c1.lastSong ∧
    (SongCounter.skip (some t) true now false c).error =
      some SongCounter.skipFailedMessage := by
  subst hc1
  have hs : ∀ b : Bool, SongCounter.skip (some t) true now b c =
      (if b then
        { SongCounter.finalizeActiveTrack (some (getLiveProgress t now)) c with
          error := none, isBusy := false }
      else
        { SongCounter.finalizeActiveTrack (some (getLiveProgress t now)) c with
          error := some SongCounter.skipFailedMessage, isBusy := false }) := by
    intro b
    cases b <;> simp [SongCounter.skip, hrun]
  rw [hs true, hs false]
  simp

/-- Witness for C6: skipping the concrete running counter at the concrete
playing track with a failing command sets the error and keeps the
finalized totals. -/
theorem skip_spec_witness :
    SongCounter.skip (some playingTrack) true 3000 false counterWithActive =
      { SongCounter.finalizeActiveTrack (some (getLiveProgress playingTrack 3000))
          counterWithActive with
        error := some SongCounter.skipFailedMessage, isBusy := false } ∧
    (SongCounter.skip (some playingTrack) true 3000 false counterWithActive).error =
      some SongCounter.skipFailedMessage :=
  ⟨(skip_spec counterWithActive
      (SongCounter.finalizeActiveTrack (some (getLiveProgress playingTrack 3000))
        counterWithActive) playingTrack 3000 rfl rfl).1,
   (skip_spec counterWithActive
      (SongCounter.finalizeActiveTrack (some (getLiveProgress playingTrack 3000))
        counterWithActive) playingTrack 3000 rfl rfl).2.2.2.2.2⟩

/-! ## C10 : totals are monotone; only start resets them -/

/-- finalizeActiveTrack either leaves the totals unchanged or bumps the song
count by one and the elapsed total by a positive playedMs. -/
theorem finalize_mono (o : Option Int) (c : CounterModel) :
    countersMonotone c (SongCounter.finalizeActiveTrack o c) := by
  unfold SongCounter.finalizeActiveTrack
  cases hc : c.activeTrack with
  | none => exact Or.inl ⟨rfl, rfl⟩
  | some snap =>
    simp only []
    split
    · exact Or.inl ⟨rfl, rfl⟩
    · exact Or.inr ⟨rfl, _, by omega, rfl⟩

/-- countersMonotone only looks at the two counter fields. -/
theorem countersMonotone_of_eq (c c2 c3 : CounterModel)
    (h : countersMonotone c c2)
    (hs : c3.songsCompleted = c2.songsCompleted)
    (ht : c3.totalElapsedMs = c2.totalElapsedMs) :
    countersMonotone c c3 := by
  rcases h with ⟨h1, h2⟩ | ⟨h1, p, hp, h2⟩
  · exact Or.inl ⟨hs.trans h1, ht.trans h2⟩
  · exact Or.inr ⟨hs.trans h1, p, hp, ht.trans h2⟩

/-- C10: every snapshot-processing step, skip, and stop either leaves
songsCompleted and totalElapsedMs unchanged or increments songsCompleted by
exactly one while adding a positive finalized playedMs to totalElapsedMs;
a successful start resets both to zero. -/
theorem counter_totals_monotone (c : CounterModel) (track : Option CurrentTrack)
    (now : Int) (hasToken skipSucceeds : Bool) (t0 : CurrentTrack)
    (ht0 : t0.isPlaying = true) (c0 : CounterModel) :
    countersMonotone c (SongCounter.processSnapshot track now c) ∧
    countersMonotone c (SongCounter.skip track hasToken now skipSucceeds c) ∧
    countersMonotone c (SongCounter.stop c) ∧
    (SongCounter.start (some t0) true now c0).songsCompleted = 0 ∧
    (SongCounter.start (some t0) true now c0).totalElapsedMs = 0 := by
  refine ⟨?_, ?_, ?_, ?_, ?_⟩
  · unfold SongCounter.processSnapshot
    split
    · exact Or.inl ⟨rfl, rfl⟩
    · cases track with
      | none =>
        exact countersMonotone_of_eq c _ _ (finalize_mono none c) rfl rfl
      | some t =>
        dsimp only
        split
        · exact Or.inl ⟨rfl, rfl⟩
        · split
          · refine Or.inl ⟨?_, ?_⟩ <;> simp [SongCounter.beginTracking]
          · split
            · exact Or.inl ⟨rfl, rfl⟩
            · refine countersMonotone_of_eq c _ _ (finalize_mono none c) ?_ ?_ <;>
                simp [SongCounter.beginTracking]
  · unfold SongCounter.skip
    split
    · exact Or.inl ⟨rfl, rfl⟩
    · cases track with
      | none =>
        dsimp only
        split
        · exact finalize_mono none c
        · split <;>
            exact countersMonotone_of_eq c _ _ (finalize_mono none c) rfl rfl
      | some t =>
        dsimp only
        split
        · exact finalize_mono (some (getLiveProgress t now)) c
        · split <;>
            exact countersMonotone_of_eq c _ _
              (finalize_mono (some (getLiveProgress t now)) c) rfl rfl
  · unfold SongCounter.stop
    split
    · exact Or.inl ⟨rfl, rfl⟩
    · exact countersMonotone_of_eq c _ _ (finalize_mono none c) rfl rfl
  · simp [SongCounter.start, ht0, SongCounter.beginTracking]
  · simp [SongCounter.start, ht0, SongCounter.beginTracking]

/-- Witness for C10: stopping the concrete running counter is monotone, and
a successful start from the initial counter zeroes both totals. -/
theorem counter_totals_monotone_witness :
    countersMonotone counterWithActive (SongCounter.stop counterWithActive) ∧
    (SongCounter.start (some playingTrack) true 3000 initialCounter).songsCompleted
      = 0 ∧
    (SongCounter.start (some playingTrack) true 3000 initialCounter).totalElapsedMs
      = 0 := by
  obtain ⟨_, _, h3, h4, h5⟩ :=
    counter_totals_monotone counterWithActive none 0 true true playingTrack rfl
      initialCounter
  exact ⟨h3, h4, h5⟩

/-! ## C1 : computeTimeline invariants -/

/-- The computeTimeline loop, entered at loop index `index` with `fuel`
remaining iterations (index + fuel = slicesToCreate) and accumulated start
offset `start`, produces exactly the closed-form slices. -/
theorem buildSlices_closed (s r n : Nat) :
    ∀ fuel index start, index + fuel = n →
      buildSlices s r n fuel start index =
        (List.range fuel).map (mkTimelineSlice s r n start index) := by
  intro fuel
  induction fuel with
  | zero => intro index start h; rfl
  | succ f ih =>
    intro index start h
    rw [buildSlices, List.range_succ_eq_map, List.map_cons, List.map_map,
      ih (index + 1) _ (by omega)]
    congr 1
    · simp [mkTimelineSlice]
    · apply List.map_congr_left
      intro k hk
      have hkf : k < f := List.mem_range.mp hk
      have hne : (index == n - 1) = false := by
        simp only [beq_eq_false_iff_ne]
        omega
      simp only [Function.comp, mkTimelineSlice, hne, Bool.false_and,
        Bool.false_eq_true, if_false, Nat.succ_eq_add_one]
      have e1 : index + 1 + k = index + (k + 1) := by omega
      have e2 : start + s + k * s = start + (k + 1) * s := by ring
      rw [e1, e2]

/-- Summing a constant over List.range. -/
theorem sum_map_const_range (s : Nat) :
    ∀ m : Nat, ((List.range m).map (fun _ => s)).sum = m * s := by
  intro m
  induction m with
  | zero => simp
  | succ p ihp =>
    rw [List.range_succ, List.map_append, List.sum_append, ihp]
    simp [Nat.succ_mul]

/-- The sum of the slice durations: n − 1 full slices plus a final slice of
length r when r > 0 and s otherwise. -/
theorem sum_sliceDurations (s r n : Nat) (hn : 0 < n) :
    ((List.range n).map
      (fun k => if (k == n - 1) && decide (0 < r) then r else s)).sum =
      (n - 1) * s + (if 0 < r then r else s) := by
  obtain ⟨m, rfl⟩ : ∃ m, n = m + 1 := ⟨n - 1, by omega⟩
  rw [List.range_succ, List.map_append, List.sum_append]
  have hcongr : ∀ k ∈ List.range m,
      (if (k == m + 1 - 1) && decide (0 < r) then r else s) = s := by
    intro k hk
    have : k < m := List.mem_range.mp hk
    have hne : (k == m + 1 - 1) = false := by
      simp only [beq_eq_false_iff_ne]
      omega
    rw [hne]
    simp
  rw [List.map_congr_left hcongr, sum_map_const_range]
  simp [Nat.add_sub_cancel]





/-- The core facts about the closed-form timeline for any s, total and the
derived f = total / s, r = total − f·s, n = f + (1 if r > 0 or f = 0):
the timeline is non-empty, consecutive closed-form slices are contiguous,
the durations sum to total, and skipAfter is false exactly at the last
position. -/
theorem computeTimeline_pieces (s total f r n : Nat)
    (hf : f = total / s) (hr : r = total - f * s)
    (hn : n = f + (if 0 < r ∨ f = 0 then 1 else 0)) (h0 : total ≠ 0) :
    0 < n ∧
    (∀ i, i + 1 < n →
      (mkTimelineSlice s r n 0 0 i).endMs =
        (mkTimelineSlice s r n 0 0 (i + 1)).startMs) ∧
    ((List.range n).map
        (TimelineSlice.durationMs ∘ mkTimelineSlice s r n 0 0)).sum = total ∧
    (∀ i, i < n →
      ((mkTimelineSlice s r n 0 0 i).skipAfter = false ↔ i = n - 1)) := by
  have hfs : f * s ≤ total := by rw [hf]; exact Nat.div_mul_le_self total s
  have hn0 : 0 < n := by
    by_cases hc : 0 < r ∨ f = 0
    · rw [hn, if_pos hc]; omega
    · have hf0 : f ≠ 0 := by tauto
      rw [hn, if_neg hc]; omega
  refine ⟨hn0, ?_, ?_, ?_⟩
  · intro i hi
    have hne : (i == n - 1) = false := by
      simp only [beq_eq_false_iff_ne]
      omega
    simp only [mkTimelineSlice, Nat.zero_add, hne, Bool.false_and,
      Bool.false_eq_true, if_false]
    ring
  · have hfun : ∀ k ∈ List.range n,
        (TimelineSlice.durationMs ∘ mkTimelineSlice s r n 0 0) k =
          (fun k => if (k == n - 1) && decide (0 < r) then r else s) k := by
      intro k hk
      simp [mkTimelineSlice]
    rw [List.map_congr_left hfun, sum_sliceDurations s r n hn0]
    by_cases hrpos : 0 < r
    · have hnn : n = f + 1 := by rw [hn, if_pos (Or.inl hrpos)]
      rw [hnn, if_pos hrpos]
      simp only [Nat.add_sub_cancel]
      rw [hr]
      exact Nat.add_sub_cancel' hfs
    · have hr0 : r = 0 := by omega
      have hf0 : f ≠ 0 := by
        intro hf0
        have : total = 0 := by
          rw [hf0] at hr
          rw [hr] at hr0
          simpa using hr0
        exact h0 this
      have hnn : n = f := by
        rw [hn, if_neg (by push_neg; exact ⟨by omega, hf0⟩)]
        omega
      rw [hnn, if_neg hrpos]
      have htotal_eq : total = f * s :=
        Nat.le_antisymm (Nat.sub_eq_zero_iff_le.mp (by rw [← hr]; exact hr0)) hfs
      rw [htotal_eq]
      obtain ⟨g, rfl⟩ : ∃ g, f = g + 1 := ⟨f - 1, by omega⟩
      simp [Nat.add_sub_cancel, Nat.succ_mul]
  · intro i hi
    simp only [mkTimelineSlice, Nat.zero_add]
    simp

/-- C1: for every valid plan (slice length in the enumerated set) whose
totalDurationMs is positive, the computed timeline is non-empty, its slices
are contiguous (slice[i].endMs = slice[i+1].startMs), the slice durations
sum to totalDurationMs, and skipAfter is false for exactly one slice,
namely the last. -/
theorem computeTimeline_spec (plan : IntervalPlan)
    (_hvalid : plan.sliceLengthSeconds ∈ SLICE_OPTIONS_SECONDS)
    (hpos : 0 < (computeTimeline plan).totalDurationMs) :
    (computeTimeline plan).timeline ≠ [] ∧
    (∀ i (h : i + 1 < (computeTimeline plan).timeline.length),
      ((computeTimeline plan).timeline.get ⟨i, by omega⟩).endMs =
        ((computeTimeline plan).timeline.get ⟨i + 1, h⟩).startMs) ∧
    ((computeTimeline plan).timeline.map TimelineSlice.durationMs).sum =
      (computeTimeline plan).totalDurationMs ∧
    (∀ i (h : i < (computeTimeline plan).timeline.length),
      (((computeTimeline plan).timeline.get ⟨i, h⟩).skipAfter = false ↔
        i = (computeTimeline plan).timeline.length - 1)) := by
  have h0 : ¬ totalMs plan = 0 := by
    intro h
    have hz : (computeTimeline plan).totalDurationMs = 0 := by
      simp [computeTimeline, h]
    omega
  obtain ⟨hn0, hcont, hsum, hskip⟩ :=
    computeTimeline_pieces (sliceMsOf plan) (totalMs plan) (fullSlicesOf plan)
      (remainderMsOf plan) (sliceCountOf plan) rfl rfl rfl h0
  have htl : (computeTimeline plan).timeline =
      (List.range (sliceCountOf plan)).map
        (mkTimelineSlice (sliceMsOf plan) (remainderMsOf plan)
          (sliceCountOf plan) 0 0) := by
    simp only [computeTimeline]
    rw [if_neg h0]
    exact buildSlices_closed (sliceMsOf plan) (remainderMsOf plan)
      (sliceCountOf plan) (sliceCountOf plan) 0 0 (by omega)
  have hlen : (computeTimeline plan).timeline.length = sliceCountOf plan := by
    rw [htl, List.length_map, List.length_range]
  have hdur : (computeTimeline plan).totalDurationMs = totalMs plan := by
    simp only [computeTimeline]
    rw [if_neg h0]
  refine ⟨?_, ?_, ?_, ?_⟩
  · rw [htl]
    simp only [ne_eq, List.map_eq_nil_iff, List.range_eq_nil]
    omega
  · intro i h
    have hi : i + 1 < sliceCountOf plan := by rw [hlen] at h; exact h
    simp only [List.get_eq_getElem, htl, List.getElem_map, List.getElem_range]
    exact hcont i hi
  · rw [htl, hdur, List.map_map]
    exact hsum
  · intro i h
    have hi : i < sliceCountOf plan := by rw [hlen] at h; exact h
    simp only [List.get_eq_getElem, htl, List.getElem_map, List.getElem_range,
      List.length_map, List.length_range]
    exact hskip i hi

/-- Witness for C1 at the default plan (10 minutes, 120 s slices). -/
theorem computeTimeline_spec_witness :
    DEFAULT_PLAN.sliceLengthSeconds ∈ SLICE_OPTIONS_SECONDS ∧
    0 < (computeTimeline DEFAULT_PLAN).totalDurationMs ∧
    (computeTimeline DEFAULT_PLAN).timeline ≠ [] ∧
    ((computeTimeline DEFAULT_PLAN).timeline.map TimelineSlice.durationMs).sum =
      (computeTimeline DEFAULT_PLAN).totalDurationMs :=
  ⟨by decide, by decide,
   (computeTimeline_spec DEFAULT_PLAN (by decide) (by decide)).1,
   (computeTimeline_spec DEFAULT_PLAN (by decide) (by decide)).2.2.1⟩

/-! ## C5 : slice-length sanitization -/

/-- jsRound in terms of Int.floor. -/
theorem jsRound_intFloor (q : Rat) : jsRound q = ⌊q + 1 / 2⌋ :=
  ratFloor_eq_intFloor (q + 1 / 2)

/-- Math.round lower bound: the rounded value is at most q + 1/2. -/
theorem jsRound_le (q : Rat) : (jsRound q : Rat) ≤ q + 1 / 2 := by
  rw [jsRound_intFloor]
  exact_mod_cast Int.floor_le (q + 1 / 2)

/-- Math.round upper bound: q + 1/2 is below the rounded value plus one. -/
theorem lt_jsRound_add_one (q : Rat) : q + 1 / 2 < (jsRound q : Rat) + 1 := by
  rw [jsRound_intFloor]
  exact_mod_cast Int.lt_floor_add_one (q + 1 / 2)

/-- Math.round yields a nearest integer: no integer is strictly closer. -/
theorem jsRound_nearest (q : Rat) (m : Int) :
    |(jsRound q : Rat) - q| ≤ |(m : Rat) - q| := by
  have h1 := jsRound_le q
  have h2 := lt_jsRound_add_one q
  by_cases hm : m = jsRound q
  · rw [hm]
  · have hne : m - jsRound q ≠ 0 := sub_ne_zero.mpr hm
    have hd : (1 : Int) ≤ |m - jsRound q| := Int.one_le_abs hne
    have hdq : (1 : Rat) ≤ |(m : Rat) - (jsRound q : Rat)| := by
      have : ((|m - jsRound q| : Int) : Rat) = |(m : Rat) - (jsRound q : Rat)| := by
        push_cast
        rfl
      rw [← this]
      exact_mod_cast hd
    have hrq : |(jsRound q : Rat) - q| ≤ 1 / 2 :=
      abs_le.mpr ⟨by linarith, by linarith⟩
    have htri : |(m : Rat) - (jsRound q : Rat)| ≤
        |(m : Rat) - q| + |q - (jsRound q : Rat)| := abs_sub_le _ _ _
    have hcomm : |q - (jsRound q : Rat)| = |(jsRound q : Rat) - q| := abs_sub_comm _ _
    linarith

/-- Clamping the rounded value into [1, 7] still yields a nearest point
among the integers of [1, 7]. -/
theorem clamp_nearest (q : Rat) (m : Int) (h1m : 1 ≤ m) (h7m : m ≤ 7) :
    |((max 1 (min 7 (jsRound q)) : Int) : Rat) - q| ≤ |(m : Rat) - q| := by
  have hle := jsRound_le q
  have hlt := lt_jsRound_add_one q
  by_cases hlo : jsRound q < 1
  · have hc : max 1 (min 7 (jsRound q)) = 1 := by omega
    rw [hc]
    have hr0 : jsRound q ≤ 0 := by omega
    have hr0q : (jsRound q : Rat) ≤ 0 := by exact_mod_cast hr0
    have hq : q < 1 / 2 := by linarith
    have hm1 : (1 : Rat) ≤ (m : Rat) := by exact_mod_cast h1m
    rw [show ((1 : Int) : Rat) = 1 from by norm_num,
      abs_of_pos (by linarith : (0 : Rat) < 1 - q),
      abs_of_pos (by linarith : (0 : Rat) < (m : Rat) - q)]
    linarith
  · by_cases hhi : 7 < jsRound q
    · have hc : max 1 (min 7 (jsRound q)) = 7 := by omega
      rw [hc]
      have hr8 : (8 : Int) ≤ jsRound q := by omega
      have hr8q : (8 : Rat) ≤ (jsRound q : Rat) := by exact_mod_cast hr8
      have hq : (15 : Rat) / 2 ≤ q := by linarith
      have hm7 : (m : Rat) ≤ 7 := by exact_mod_cast h7m
      rw [show ((7 : Int) : Rat) = 7 from by norm_num,
        abs_of_nonpos (by linarith : (7 : Rat) - q ≤ 0),
        abs_of_nonpos (by linarith : (m : Rat) - q ≤ 0)]
      linarith
    · have hc : max 1 (min 7 (jsRound q)) = jsRound q := by omega
      rw [hc]
      exact jsRound_nearest q m

/-- The normalized value computed by sanitizeSliceSeconds is 30 times the
rounded quotient clamped into [1, 7]. -/
theorem normalized_eq_clamp (q : Rat) :
    max 30 (min 210 ((jsRound (q / 30) : Rat) * 30)) =
      ((30 * max 1 (min 7 (jsRound (q / 30))) : Int) : Rat) := by
  have hz : (max 30 (min 210 (jsRound (q / 30) * 30)) : Int) =
      30 * max 1 (min 7 (jsRound (q / 30))) := by omega
  have hcast : max (30 : Rat) (min 210 ((jsRound (q / 30) : Rat) * 30)) =
      ((max 30 (min 210 (jsRound (q / 30) * 30)) : Int) : Rat) := by
    rw [Int.cast_max, Int.cast_min, Int.cast_mul]
    norm_num
  rw [hcast, hz]

/-- 30 times an integer clamped into [1, 7] is an enumerated option. -/
theorem clamp_mem_options (r : Int) :
    ((30 * max 1 (min 7 r) : Int) : Rat) ∈
      SLICE_OPTIONS_SECONDS.map (fun n => (n : Rat)) := by
  have hc1 : 1 ≤ max 1 (min 7 r) := le_max_left _ _
  have hc7 : max 1 (min 7 r) ≤ 7 := by omega
  set c := max 1 (min 7 r) with hc
  interval_cases c <;> norm_num [SLICE_OPTIONS_SECONDS]

/-- The clamped rounded multiple of 30 is at least as close to q as any
other multiple 30·m with m in [1, 7]. -/
theorem scaled_clamp_nearest (q : Rat) (m : Int) (h1m : 1 ≤ m) (h7m : m ≤ 7) :
    |((30 * max 1 (min 7 (jsRound (q / 30))) : Int) : Rat) - q| ≤
      |((30 * m : Int) : Rat) - q| := by
  have base := clamp_nearest (q / 30) m h1m h7m
  have e1 : ((30 * max 1 (min 7 (jsRound (q / 30))) : Int) : Rat) - q =
      30 * (((max 1 (min 7 (jsRound (q / 30))) : Int) : Rat) - q / 30) := by
    push_cast
    ring
  have e2 : ((30 * m : Int) : Rat) - q = 30 * ((m : Rat) - q / 30) := by
    push_cast
    ring
  rw [e1, e2, abs_mul, abs_mul, show |(30 : Rat)| = 30 from by norm_num]
  exact mul_le_mul_of_nonneg_left base (by norm_num)

/-- C5: every finite input is mapped to clamp-to-[30, 210]-and-round-to-a-
multiple-of-30, which is an enumerated option and a nearest one; every
non-finite input maps to the default slice length 120. -/
theorem sanitizeSliceSeconds_spec (q : Rat) :
    sanitizeSliceSeconds (.finite q) =
      max 30 (min 210 ((jsRound (q / 30) : Rat) * 30)) ∧
    sanitizeSliceSeconds (.finite q) ∈
      SLICE_OPTIONS_SECONDS.map (fun n => (n : Rat)) ∧
    isNearestOption (sanitizeSliceSeconds (.finite q)) q ∧
    sanitizeSliceSeconds .nan = 120 ∧
    sanitizeSliceSeconds .posInf = 120 ∧
    sanitizeSliceSeconds .negInf = 120 := by
  have hmem : max 30 (min 210 ((jsRound (q / 30) : Rat) * 30)) ∈
      SLICE_OPTIONS_SECONDS.map (fun n => (n : Rat)) := by
    rw [normalized_eq_clamp]
    exact clamp_mem_options (jsRound (q / 30))
  have heq : sanitizeSliceSeconds (.finite q) =
      max 30 (min 210 ((jsRound (q / 30) : Rat) * 30)) := by
    simp only [sanitizeSliceSeconds]
    rw [if_pos hmem]
  refine ⟨heq, heq ▸ hmem, ?_, rfl, rfl, rfl⟩
  intro o ho
  rw [heq, normalized_eq_clamp]
  fin_cases ho
  · simpa using scaled_clamp_nearest q 1 (by norm_num) (by norm_num)
  · simpa using scaled_clamp_nearest q 2 (by norm_num) (by norm_num)
  · simpa using scaled_clamp_nearest q 3 (by norm_num) (by norm_num)
  · simpa using scaled_clamp_nearest q 4 (by norm_num) (by norm_num)
  · simpa using scaled_clamp_nearest q 5 (by norm_num) (by norm_num)
  · simpa using scaled_clamp_nearest q 6 (by norm_num) (by norm_num)
  · simpa using scaled_clamp_nearest q 7 (by norm_num) (by norm_num)

/-- Witness for C5 at a concrete finite input and the NaN fallback. -/
theorem sanitizeSliceSeconds_spec_witness :
    sanitizeSliceSeconds .nan = 120 ∧
    sanitizeSliceSeconds (.finite 95) ∈
      SLICE_OPTIONS_SECONDS.map (fun n => (n : Rat)) :=
  ⟨(sanitizeSliceSeconds_spec 95).2.2.2.1, (sanitizeSliceSeconds_spec 95).2.1⟩
